import Mathlib

/-!
Shallow embedding of the tutorial notebook
docs/tutorials/render_colored_points.ipynb.

The notebook is a straight-line script: it fetches a pointcloud archive with
mkdir/wget, selects a compute device, loads the archive with np.load, builds a
Pointclouds batch, constructs two renderers (an alpha compositor and a
norm-weighted compositor, otherwise identical), renders the point cloud with
each, and displays images[0, ..., :3].

The notebook's own control flow is embedded from the source.  The external
library calls (np.load, Pointclouds, look_at_view_transform,
OpenGLOrthographicCameras, PointsRenderer, the compositors, wget) are not part
of the repository snapshot, so they are modelled from the spec; each such
definition carries a doc comment saying what it models.  The rasterization and
compositing arithmetic is explicitly out of scope in the spec, so the pixel
contents are parametrized by an arbitrary compositing function of exactly the
inputs the spec names (compositor kind, camera, settings, points, features).
-/

namespace ColoredPoints

/-- Numeric scalars of the arrays; ℚ stands in for the float entries. -/
abbrev Scalar := ℚ

/-- A 3D point record, one row of the verts array. -/
abbrev Vec3 := Scalar × Scalar × Scalar

/-- A per-point color record, one row of the rgb array (channel values). -/
abbrev ColorVec := List Scalar

/-- Modelled from the spec: the well-formed content of the compressed archive,
"a compressed array archive containing two named arrays": point positions
(verts) and point colors (rgb). -/
structure Archive where
  verts : List Vec3
  rgb : List ColorVec
deriving DecidableEq

/-- Content of a filesystem entry: a directory, or a data file that either
parses as the archive (some a) or is malformed (none). -/
inductive FileContent
  | dir
  | npzFile (parsed : Option Archive)
deriving DecidableEq

/-- The filesystem, an association list from (normalized) paths to contents. -/
abbrev FS := List (String × FileContent)

/-- Strip a leading "./", so that the notebook's "./data/..." path and wget's
"data/..." target name the same file, as they do on a POSIX filesystem. -/
def normPath (p : String) : String :=
  match p.data with
  | '.' :: '/' :: rest => String.mk rest
  | _ => p

/-- Look a path up in the filesystem, after normalization. -/
def fsLookup (fs : FS) (p : String) : Option FileContent :=
  List.lookup (normPath p) fs

/-- Create an entry (used only at paths that are currently free). -/
def fsInsert (fs : FS) (p : String) (c : FileContent) : FS :=
  (normPath p, c) :: fs

/-- The URL basename joined to the wget -P directory prefix. -/
def wgetTarget : String := "data/PittsburghBridge/pointcloud.npz"

/-- The alternative file names wget tries: the target itself, then the
numbered variants target.1, target.2, ... -/
def wgetCandidates (path : String) (n : Nat) : List String :=
  path :: (List.range n).map (fun k => path ++ "." ++ toString (k + 1))

/-- Modelled from the spec (asset fetch, "download a binary data file to a
local path") and wget's default behavior: the download is performed
unconditionally; the payload is saved at the target path when that path is
free, and otherwise at the first free numbered variant (wget's file.1
convention), leaving the existing file untouched.  remote is the content the
URL serves, none when the network fetch fails (the notebook shell cell does
not stop the run in that case).  The returned Bool records that a download was
performed.  Searching one more candidate than there are entries always finds
a free name; the fallback branch is unreachable and leaves the filesystem
unchanged. -/
def wget (fs : FS) (path : String) (remote : Option (Option Archive)) :
    FS × Bool :=
  match remote with
  | none => (fs, true)
  | some payload =>
    match (wgetCandidates path (fs.length + 1)).find?
        (fun q => (fsLookup fs q).isNone) with
    | some q => (fsInsert fs q (FileContent.npzFile payload), true)
    | none => (fs, true)

/-- mkdir -p: create the directory entry when absent, leave it alone when
present. -/
def mkdirP (fs : FS) (p : String) : FS :=
  match fsLookup fs p with
  | none => fsInsert fs p FileContent.dir
  | some _ => fs

/-- The asset-fetch cell: mkdir -p data/PittsburghBridge followed by
wget -P data/PittsburghBridge of the pointcloud.npz URL. -/
def fetchCell (fs : FS) (remote : Option (Option Archive)) : FS × Bool :=
  let fs1 := mkdirP (mkdirP fs "data") "data/PittsburghBridge"
  wget fs1 wgetTarget remote

/-- The compute device chosen by the setup cell. -/
inductive Device
  | cpu
  | cuda (index : Nat)
deriving DecidableEq

/-- Device selection from the setup cell: cuda:0 when torch.cuda.is_available,
otherwise cpu. -/
def selectDevice (cuda_available : Bool) : Device :=
  if cuda_available then Device.cuda 0 else Device.cpu

/-- DATA_DIR from the notebook. -/
def DATA_DIR : String := "./data"

/-- obj_filename: os.path.join of DATA_DIR and the archive's relative path. -/
def obj_filename : String := DATA_DIR ++ "/" ++ "PittsburghBridge/pointcloud.npz"

/-- How a run of the notebook can fail. -/
inductive RunErr
  | fileNotFound
  | parseError
  | invalidPointcloud
deriving DecidableEq

/-- Modelled from the spec (Load: "fails with a file-not-found or parse-error
condition if the path is missing or malformed; otherwise returns the two
numeric arrays"): np.load together with the extraction of the named arrays
verts and rgb.  A path holding no well-formed archive with those two arrays
(a directory, or an unparsable or key-missing file) is malformed and yields
the parse error. -/
def npLoad (fs : FS) (path : String) : Except RunErr Archive :=
  match fsLookup fs path with
  | none => Except.error RunErr.fileNotFound
  | some FileContent.dir => Except.error RunErr.parseError
  | some (FileContent.npzFile none) => Except.error RunErr.parseError
  | some (FileContent.npzFile (some a)) => Except.ok a

/-- A batch of point clouds: per cloud, a points list and a features list. -/
structure Pointclouds where
  pointsLists : List (List Vec3)
  featuresLists : List (List ColorVec)
deriving DecidableEq

/-- The Pointclouds batch invariant from the spec: the batch sizes agree and,
per cloud, the position array length equals the color array length. -/
def validPointclouds (ps : List (List Vec3)) (cs : List (List ColorVec)) : Bool :=
  ps.length == cs.length &&
    (ps.zip cs).all (fun pc => pc.1.length == pc.2.length)

/-- Modelled from the spec ("Invariant: position array length equals color
array length"): the Pointclouds constructor validates the per-cloud
correspondence of points and features and rejects a mismatched batch. -/
def mkPointclouds (ps : List (List Vec3)) (cs : List (List ColorVec)) :
    Option Pointclouds :=
  if validPointclouds ps cs then some (Pointclouds.mk ps cs) else none

/-- Modelled from the spec ("Camera pose: a rotation and translation pair
derived from (distance, elevation, azimuth) scalars"): the rotation and the
translation are each a pure function of the three scalars, so the pair is
represented abstractly by its defining scalars. -/
structure RotTrans where
  dist : Scalar
  elev : Scalar
  azim : Scalar
deriving DecidableEq

/-- Modelled from the spec: look_at_view_transform derives the (R, T) pair
from the distance, elevation and azimuth scalars. -/
def look_at_view_transform (dist elev azim : Scalar) : RotTrans :=
  RotTrans.mk dist elev azim

/-- Modelled from the spec: the orthographic camera bundles the device, the
(R, T) pair and the znear scalar; it is a plain record with no other state. -/
structure Cameras where
  device : Device
  R_T : RotTrans
  znear : Scalar
deriving DecidableEq

/-- The OpenGLOrthographicCameras constructor. -/
def OpenGLOrthographicCameras (device : Device) (R_T : RotTrans)
    (znear : Scalar) : Cameras :=
  Cameras.mk device R_T znear

/-- The rasterization settings bundle from the notebook. -/
structure PointsRasterizationSettings where
  image_size : Nat
  radius : Scalar
  points_per_pixel : Nat
deriving DecidableEq

/-- The two compositors the notebook chooses between. -/
inductive CompositorKind
  | alpha
  | normWeighted
deriving DecidableEq

/-- A PointsRasterizer bundles a camera with rasterization settings. -/
structure PointsRasterizer where
  cameras : Cameras
  raster_settings : PointsRasterizationSettings
deriving DecidableEq

/-- A PointsRenderer composes a rasterizer with a compositor. -/
structure PointsRenderer where
  rasterizer : PointsRasterizer
  compositor : CompositorKind
deriving DecidableEq

/-- The compositing arithmetic lives in the external library and is out of
scope per the spec; the development is parametric in it.  It is a function of
exactly the inputs the spec names for a render: compositor kind, camera,
settings, the cloud's points and features, then pixel row, column and
channel. -/
abbrev Compositing := CompositorKind → Cameras → PointsRasterizationSettings →
  List Vec3 → List ColorVec → Nat → Nat → Nat → Scalar

/-- A rendered image: a height by width grid of channel values. -/
structure Image where
  height : Nat
  width : Nat
  channels : Nat
  pixel : Nat → Nat → Nat → Scalar

/-- Modelled from the spec ("Render: given (point cloud, camera pose,
settings, compositor kind), returns an image array" of "the configured
resolution"): one cloud renders to a square image of side image_size whose
channel count is the feature dimension and whose pixels are produced by the
compositing function from exactly the render inputs. -/
def renderImage (cfun : Compositing) (r : PointsRenderer) (pts : List Vec3)
    (feats : List ColorVec) : Image :=
  Image.mk r.rasterizer.raster_settings.image_size
    r.rasterizer.raster_settings.image_size
    (feats.headD []).length
    (cfun r.compositor r.rasterizer.cameras r.rasterizer.raster_settings
      pts feats)

/-- Modelled from the spec: applying a PointsRenderer to a Pointclouds batch
renders each cloud of the batch to one image. -/
def rendererApply (cfun : Compositing) (r : PointsRenderer)
    (pc : Pointclouds) : List Image :=
  (pc.pointsLists.zip pc.featuresLists).map
    (fun pf => renderImage cfun r pf.1 pf.2)

/-- What the plt.imshow cell shows: an image restricted to its leading
channels. -/
structure DisplayedImage where
  height : Nat
  width : Nat
  channels : Nat
  pixel : Nat → Nat → Nat → Scalar

/-- Restriction of an image to its first k channels (the [..., :3] slice). -/
def sliceChannels (im : Image) (k : Nat) : DisplayedImage :=
  DisplayedImage.mk im.height im.width (min k im.channels) im.pixel

/-- The display cell images[0, ..., :3]: index the image batch at 0 — none
models the out-of-bounds IndexError — and keep the first three channels. -/
def displayCell (imgs : List Image) : Option DisplayedImage :=
  imgs[0]?.map (fun im => sliceChannels im 3)

/-- The environment a run starts from: whether CUDA is available, the initial
filesystem, and the content served by the data URL (none when the network
fetch fails). -/
structure Env where
  cuda_available : Bool
  fs : FS
  remote : Option (Option Archive)

/-- The loading section of the setup cell: np.load of obj_filename, then the
Pointclouds construction from the verts and rgb arrays (the to-device moves
do not change the array values). -/
def loadCell (fs : FS) : Except RunErr Pointclouds :=
  match npLoad fs obj_filename with
  | Except.error e => Except.error e
  | Except.ok pointcloud =>
    match mkPointclouds [pointcloud.verts] [pointcloud.rgb] with
    | none => Except.error RunErr.invalidPointcloud
    | some point_cloud => Except.ok point_cloud

/-- The camera construction of the first renderer cell. -/
def camerasCellAlpha (device : Device) : Cameras :=
  OpenGLOrthographicCameras device (look_at_view_transform 20 10 0) (1 / 100)

/-- The rasterization settings of the first renderer cell. -/
def rasterSettingsAlpha : PointsRasterizationSettings :=
  PointsRasterizationSettings.mk 512 (3 / 1000) 10

/-- The camera construction of the second renderer cell (same arguments). -/
def camerasCellNorm (device : Device) : Cameras :=
  OpenGLOrthographicCameras device (look_at_view_transform 20 10 0) (1 / 100)

/-- The rasterization settings of the second renderer cell (same values). -/
def rasterSettingsNorm : PointsRasterizationSettings :=
  PointsRasterizationSettings.mk 512 (3 / 1000) 10

/-- Everything a completed run has produced, recorded per cell so that the
claims about intermediate values can be stated. -/
structure NotebookResult where
  device : Device
  pointCloud : Pointclouds
  camerasAlpha : Cameras
  settingsAlpha : PointsRasterizationSettings
  rendererAlpha : PointsRenderer
  pcUsedAlpha : Pointclouds
  imagesAlpha : List Image
  displayAlpha : Option DisplayedImage
  camerasNorm : Cameras
  settingsNorm : PointsRasterizationSettings
  rendererNorm : PointsRenderer
  pcUsedNorm : Pointclouds
  imagesNorm : List Image
  displayNorm : Option DisplayedImage
  fsAfter : FS
  downloaded : Bool

/-- The whole notebook, cell by cell: fetch, device selection, load, first
renderer assembly and render and display, second renderer assembly and render
and display.  The filesystem is threaded explicitly; only the fetch cell
touches it. -/
def notebookRun (cfun : Compositing) (env : Env) :
    Except RunErr NotebookResult :=
  let fetched := fetchCell env.fs env.remote
  let device := selectDevice env.cuda_available
  match loadCell fetched.1 with
  | Except.error e => Except.error e
  | Except.ok point_cloud =>
    let camerasA := camerasCellAlpha device
    let settingsA := rasterSettingsAlpha
    let rendererA := PointsRenderer.mk
      (PointsRasterizer.mk camerasA settingsA) CompositorKind.alpha
    let imagesA := rendererApply cfun rendererA point_cloud
    let dispA := displayCell imagesA
    let camerasN := camerasCellNorm device
    let settingsN := rasterSettingsNorm
    let rendererN := PointsRenderer.mk
      (PointsRasterizer.mk camerasN settingsN) CompositorKind.normWeighted
    let imagesN := rendererApply cfun rendererN point_cloud
    let dispN := displayCell imagesN
    Except.ok (NotebookResult.mk device point_cloud
      camerasA settingsA rendererA point_cloud imagesA dispA
      camerasN settingsN rendererN point_cloud imagesN dispN
      fetched.1 fetched.2)

/-- The images a run produced (empty when the run failed). -/
def imagesOf : Except RunErr NotebookResult → List Image
  | Except.ok res => res.imagesAlpha ++ res.imagesNorm
  | Except.error _ => []

/-- The device a successful run selected. -/
def deviceOf : Except RunErr NotebookResult → Option Device
  | Except.ok res => some res.device
  | Except.error _ => none

/-- The filesystem a successful run finished with. -/
def fsAfterOf : Except RunErr NotebookResult → Option FS
  | Except.ok res => some res.fsAfter
  | Except.error _ => none

/-- A compositing function used to instantiate the parametric development on
concrete inputs (the real compositing arithmetic is out of scope). -/
def trivialCompositing : Compositing := fun _ _ _ _ _ _ _ _ => 0

/-- A well-formed two-point archive used as a concrete test input. -/
def goodArchive : Archive :=
  Archive.mk [(0, 0, 0), (1, 2, 3)] [[1, 0, 0], [0, 1, 0]]

/-- A second, different archive standing for the content the URL serves. -/
def otherArchive : Archive := Archive.mk [(5, 5, 5)] [[1, 1, 1]]

/-- A filesystem that already holds the well-formed archive at the data
path. -/
def goodFS : FS := [(wgetTarget, FileContent.npzFile (some goodArchive))]

/-- The local-run environment: no CUDA, data already on disk, no network. -/
def goodEnv : Env := Env.mk false goodFS none

/-- An environment where the data file is absent and the network fetch
fails. -/
def envMissing : Env := Env.mk true [] none

/-- An environment where the data file exists but does not parse. -/
def envMalformed : Env :=
  Env.mk true [(wgetTarget, FileContent.npzFile none)] none

/-- The Colab-like environment: empty disk, URL serves the archive. -/
def envDownload : Env := Env.mk false [] (some (some goodArchive))

/-- An environment where the data file already exists and the URL serves a
different archive. -/
def envExisting : Env := Env.mk false goodFS (some (some otherArchive))

/-- Inserting at a free path does not change what any other lookup sees. -/
theorem fsLookup_insert_of_free (fs : FS) (q p : String) (v c : FileContent)
    (hq : fsLookup fs q = none) (hp : fsLookup fs p = some c) :
    fsLookup (fsInsert fs q v) p = some c := by
  have hne : (normPath p == normPath q) = false := by
    cases hpq : normPath p == normPath q with
    | false => rfl
    | true =>
      have : normPath p = normPath q := eq_of_beq hpq
      rw [fsLookup, this, ← fsLookup] at hp
      rw [hq] at hp
      exact absurd hp (by simp)
  rw [fsLookup, fsInsert, List.lookup, hne]
  exact hp

/-- mkdir -p does not change what an existing file's lookup sees. -/
theorem mkdirP_preserves (fs : FS) (d p : String) (c : FileContent)
    (hp : fsLookup fs p = some c) : fsLookup (mkdirP fs d) p = some c := by
  rw [mkdirP]
  cases hd : fsLookup fs d with
  | none => exact fsLookup_insert_of_free fs d p FileContent.dir c hd hp
  | some _ => exact hp

/-- wget saves the payload only at a path that was free, so every existing
file's lookup is unchanged. -/
theorem wget_preserves (fs : FS) (path p : String)
    (remote : Option (Option Archive)) (c : FileContent)
    (hp : fsLookup fs p = some c) :
    fsLookup (wget fs path remote).1 p = some c := by
  unfold wget
  cases remote with
  | none => exact hp
  | some payload =>
    cases hf : (wgetCandidates path (fs.length + 1)).find?
        (fun q => (fsLookup fs q).isNone) with
    | none => exact hp
    | some q =>
      have hq := List.find?_some hf
      exact fsLookup_insert_of_free fs q p (FileContent.npzFile payload) c
        (Option.isNone_iff_eq_none.mp hq) hp

/-- wget always reports that the download was performed. -/
theorem wget_downloads (fs : FS) (path : String)
    (remote : Option (Option Archive)) : (wget fs path remote).2 = true := by
  unfold wget
  cases remote with
  | none => rfl
  | some payload =>
    cases (wgetCandidates path (fs.length + 1)).find?
        (fun q => (fsLookup fs q).isNone) with
    | none => rfl
    | some q => rfl

/-- The fetch cell as a whole preserves every pre-existing file. -/
theorem fetchCell_preserves (fs : FS) (remote : Option (Option Archive))
    (p : String) (c : FileContent) (hp : fsLookup fs p = some c) :
    fsLookup (fetchCell fs remote).1 p = some c := by
  rw [fetchCell]
  exact wget_preserves _ wgetTarget p remote c
    (mkdirP_preserves _ "data/PittsburghBridge" p c
      (mkdirP_preserves fs "data" p c hp))

/-- A successful load comes from a well-formed archive and wraps its two
arrays as a singleton batch that passed the length validation. -/
theorem loadCell_ok_shape (fs : FS) (pc : Pointclouds)
    (h : loadCell fs = Except.ok pc) :
    ∃ a : Archive, npLoad fs obj_filename = Except.ok a ∧
      pc = Pointclouds.mk [a.verts] [a.rgb] ∧
      validPointclouds [a.verts] [a.rgb] = true := by
  cases hl : npLoad fs obj_filename with
  | error e =>
    rw [loadCell, hl] at h
    exact absurd h (by simp)
  | ok a =>
    rw [loadCell, hl] at h
    have h' : (match mkPointclouds [a.verts] [a.rgb] with
        | none => Except.error RunErr.invalidPointcloud
        | some point_cloud => Except.ok point_cloud) = Except.ok pc := h
    by_cases hv : validPointclouds [a.verts] [a.rgb] = true
    · have hm : mkPointclouds [a.verts] [a.rgb]
          = some (Pointclouds.mk [a.verts] [a.rgb]) := by
        unfold mkPointclouds
        rw [if_pos hv]
      rw [hm] at h'
      have hpc : Pointclouds.mk [a.verts] [a.rgb] = pc := by
        simpa using h'
      exact ⟨a, by simp [hl], hpc.symm, hv⟩
    · have hm : mkPointclouds [a.verts] [a.rgb] = none := by
        unfold mkPointclouds
        rw [if_neg hv]
      rw [hm] at h'
      exact absurd h' (by simp)

/-- Looking up the path just inserted finds the inserted content. -/
theorem fsLookup_insert_same (fs : FS) (p : String) (v : FileContent) :
    fsLookup (fsInsert fs p v) p = some v := by
  simp [fsLookup, fsInsert, List.lookup]

/-- mkdir -p at one path leaves the lookup of a different path unchanged. -/
theorem fsLookup_mkdirP_ne (fs : FS) (d p : String)
    (h : (normPath p == normPath d) = false) :
    fsLookup (mkdirP fs d) p = fsLookup fs p := by
  unfold mkdirP
  cases hd : fsLookup fs d with
  | none => simp [fsLookup, fsInsert, List.lookup, h]
  | some c => rfl

/-- When the target path is free, wget saves the payload exactly there. -/
theorem wget_fresh (fs : FS) (path : String) (payload : Option Archive)
    (h : fsLookup fs path = none) :
    (wget fs path (some payload)).1
      = fsInsert fs path (FileContent.npzFile payload) := by
  have hp : (fsLookup fs path).isNone = true := by simp [h]
  have hfind : (wgetCandidates path (fs.length + 1)).find?
      (fun q => (fsLookup fs q).isNone) = some path := by
    unfold wgetCandidates
    exact List.find?_cons_of_pos _ hp
  show (match (wgetCandidates path (fs.length + 1)).find?
      (fun q => (fsLookup fs q).isNone) with
    | some q => (fsInsert fs q (FileContent.npzFile payload), true)
    | none => (fs, true)).1 = fsInsert fs path (FileContent.npzFile payload)
  rw [hfind]

/-- When the data file is absent and the URL serves a payload, the fetch cell
puts that payload at the target path. -/
theorem fetchCell_downloads_to_target (fs : FS) (payload : Option Archive)
    (habs : fsLookup fs wgetTarget = none) :
    fsLookup (fetchCell fs (some payload)).1 wgetTarget
      = some (FileContent.npzFile payload) := by
  have h2 : fsLookup (mkdirP (mkdirP fs "data") "data/PittsburghBridge")
      wgetTarget = none := by
    rw [fsLookup_mkdirP_ne _ _ _ (by decide), fsLookup_mkdirP_ne _ _ _ (by decide)]
    exact habs
  have hw : (fetchCell fs (some payload)).1
      = fsInsert (mkdirP (mkdirP fs "data") "data/PittsburghBridge")
          wgetTarget (FileContent.npzFile payload) :=
    wget_fresh _ wgetTarget payload h2
  rw [hw]
  exact fsLookup_insert_same _ _ _

/-- A missing data file makes the load fail with the file-not-found error. -/
theorem loadCell_fileNotFound (fs : FS) (h : fsLookup fs obj_filename = none) :
    loadCell fs = Except.error RunErr.fileNotFound := by
  simp [loadCell, npLoad, h]

/-- An unparsable data file makes the load fail with the parse error. -/
theorem loadCell_parseError (fs : FS)
    (h : fsLookup fs obj_filename = some (FileContent.npzFile none)) :
    loadCell fs = Except.error RunErr.parseError := by
  simp [loadCell, npLoad, h]

/-- The local-run environment completes, so the run model is not vacuous. -/
theorem notebookRun_goodEnv_completes :
    (notebookRun trivialCompositing goodEnv).toOption.isSome = true := by
  decide

/-- C1: the rendered image batch is a pure function of (point cloud, camera
pose, render settings, compositor choice): for any compositing arithmetic,
two render invocations whose cameras, settings, compositors and point clouds
agree produce the same images — the model carries no other state the output
could depend on, so two invocations with the same inputs coincide. -/
theorem C1_render_pure (cfun : Compositing) (r₁ r₂ : PointsRenderer)
    (pc₁ pc₂ : Pointclouds)
    (hcam : r₁.rasterizer.cameras = r₂.rasterizer.cameras)
    (hset : r₁.rasterizer.raster_settings = r₂.rasterizer.raster_settings)
    (hcomp : r₁.compositor = r₂.compositor) (hpc : pc₁ = pc₂) :
    rendererApply cfun r₁ pc₁ = rendererApply cfun r₂ pc₂ := by
  obtain ⟨⟨c₁, s₁⟩, k₁⟩ := r₁
  obtain ⟨⟨c₂, s₂⟩, k₂⟩ := r₂
  cases hcam
  cases hset
  cases hcomp
  cases hpc
  rfl

/-- The point cloud of the concrete archive, for instantiating theorems. -/
def pcA : Pointclouds := Pointclouds.mk [goodArchive.verts] [goodArchive.rgb]

/-- The first notebook cell's renderer on the cpu device. -/
def rendererA : PointsRenderer :=
  PointsRenderer.mk
    (PointsRasterizer.mk (camerasCellAlpha Device.cpu) rasterSettingsAlpha)
    CompositorKind.alpha

/-- A renderer assembled from the second cell's camera and settings values
with the alpha compositor; its configuration equals that of rendererA. -/
def rendererB : PointsRenderer :=
  PointsRenderer.mk
    (PointsRasterizer.mk (camerasCellNorm Device.cpu) rasterSettingsNorm)
    CompositorKind.alpha

/-- Witness for C1: two differently assembled renderers with equal
configuration render the concrete point cloud to the same images. -/
theorem C1_render_pure_witness :
    rendererApply trivialCompositing rendererA pcA
      = rendererApply trivialCompositing rendererB pcA :=
  C1_render_pure trivialCompositing rendererA rendererB pcA pcA rfl rfl rfl rfl

/-- C2: every image either render invocation of a run produces has 2D
resolution 512 by 512, the configured image_size of the fixed settings
(image_size 512, radius 3/1000, points_per_pixel 10) both cells use. -/
theorem C2_rendered_resolution (cfun : Compositing) (env : Env) :
    ((imagesOf (notebookRun cfun env)).all
      (fun img => img.height == 512 && img.width == 512)) = true := by
  simp only [notebookRun]
  cases hl : loadCell (fetchCell env.fs env.remote).1 with
  | error e => simp [imagesOf]
  | ok pc =>
    simp only [imagesOf, rendererApply, renderImage, rasterSettingsAlpha,
      rasterSettingsNorm, List.all_append, List.all_map, Function.comp,
      List.all_eq_true, List.mem_map, Prod.exists, forall_exists_index,
      and_imp, Bool.and_eq_true, beq_iff_eq]
    refine ⟨?_, ?_⟩ <;>
    · intro x p f hmem hx
      cases hx
      exact ⟨rfl, rfl⟩

/-- C3: every successful load yields a point cloud satisfying the validated
invariant that the position and color arrays have equal length, and the very
same point cloud value is what both later render invocations receive — the
arrays are never reordered or resized after loading. -/
theorem C3_pointcloud_invariant (cfun : Compositing) (env : Env) :
    (Option.all (fun res =>
        validPointclouds res.pointCloud.pointsLists res.pointCloud.featuresLists
        && (res.pcUsedAlpha == res.pointCloud)
        && (res.pcUsedNorm == res.pointCloud))
      (notebookRun cfun env).toOption) = true := by
  simp only [notebookRun]
  cases hl : loadCell (fetchCell env.fs env.remote).1 with
  | error e => rfl
  | ok pc =>
    obtain ⟨a, hload, hpc, hv⟩ := loadCell_ok_shape _ pc hl
    subst hpc
    simp [Except.toOption, hv]

/-- C4: the Load operation fails with the file-not-found condition exactly
when the path is missing, fails with the parse-error condition exactly when
the path holds no well-formed archive (a directory or an unparsable file),
and otherwise succeeds returning exactly the archive's two numeric arrays,
point positions (verts) and point colors (rgb). -/
theorem C4_load_trichotomy (fs : FS) (path : String) :
    (npLoad fs path = Except.error RunErr.fileNotFound
        ↔ fsLookup fs path = none)
    ∧ (npLoad fs path = Except.error RunErr.parseError
        ↔ (fsLookup fs path = some FileContent.dir
            ∨ fsLookup fs path = some (FileContent.npzFile none)))
    ∧ (∀ a : Archive, npLoad fs path = Except.ok a
        ↔ fsLookup fs path = some (FileContent.npzFile (some a))) := by
  cases h : fsLookup fs path with
  | none => simp [npLoad, h]
  | some c =>
    cases c with
    | dir => simp [npLoad, h]
    | npzFile pa =>
      cases pa with
      | none => simp [npLoad, h]
      | some a => simp [npLoad, h]

/-- C5 as stated is false on the code: it asserts no fallback behavior when
the compute device is unavailable, but on a good environment with CUDA
unavailable the setup cell selects the CPU device and the run completes —
a fallback, not a propagated failure. -/
theorem C5_counterexample :
    goodEnv.cuda_available = false
    ∧ selectDevice false = Device.cpu
    ∧ deviceOf (notebookRun trivialCompositing goodEnv) = some Device.cpu := by
  exact ⟨rfl, rfl, by decide⟩

/-- C5 amended: missing-file and malformed-archive failures propagate from
the load call directly into the run's result with no recovery logic, while an
unavailable CUDA device is not a failure at all — the setup cell falls back
to the CPU device and the run proceeds. -/
theorem C5_failures_propagate (cfun : Compositing) (env : Env) :
    (fsLookup (fetchCell env.fs env.remote).1 obj_filename = none →
        notebookRun cfun env = Except.error RunErr.fileNotFound)
    ∧ (fsLookup (fetchCell env.fs env.remote).1 obj_filename
          = some (FileContent.npzFile none) →
        notebookRun cfun env = Except.error RunErr.parseError)
    ∧ (env.cuda_available = false →
        (Option.all (fun res => res.device == Device.cpu)
          (notebookRun cfun env).toOption) = true) := by
  refine ⟨?_, ?_, ?_⟩
  · intro h
    simp [notebookRun, loadCell_fileNotFound _ h]
  · intro h
    simp [notebookRun, loadCell_parseError _ h]
  · intro h
    simp only [notebookRun]
    cases hl : loadCell (fetchCell env.fs env.remote).1 with
    | error e => rfl
    | ok pc => simp [Except.toOption, selectDevice, h]

/-- Witness for C5 amended, at an environment with no file and no network, an
environment with an unparsable file, and the good CUDA-less environment. -/
theorem C5_failures_propagate_witness :
    notebookRun trivialCompositing envMissing
        = Except.error RunErr.fileNotFound
    ∧ notebookRun trivialCompositing envMalformed
        = Except.error RunErr.parseError
    ∧ (Option.all (fun res => res.device == Device.cpu)
        (notebookRun trivialCompositing goodEnv).toOption) = true :=
  ⟨(C5_failures_propagate trivialCompositing envMissing).1 (by decide),
   (C5_failures_propagate trivialCompositing envMalformed).2.1 (by decide),
   (C5_failures_propagate trivialCompositing goodEnv).2.2 rfl⟩

/-- C6 as stated is false on the code: the fetch cell is unconditional, so on
an environment whose filesystem already holds the archive at the target path
the download is still performed (the pre-existing file is indeed left
unchanged). -/
theorem C6_counterexample :
    fsLookup envExisting.fs wgetTarget
        = some (FileContent.npzFile (some goodArchive))
    ∧ (fetchCell envExisting.fs envExisting.remote).2 = true
    ∧ fsLookup (fetchCell envExisting.fs envExisting.remote).1 wgetTarget
        = some (FileContent.npzFile (some goodArchive)) := by
  exact ⟨by decide, by decide, by decide⟩

/-- C6 amended: the fetch cell performs the download unconditionally — also
when the file already exists at the target path — but every pre-existing
file, the target included, is left unchanged (wget saves the payload under a
numbered alternative name instead of overwriting); when the file is absent
the downloaded payload does land at the target path. -/
theorem C6_fetch_unconditional (fs : FS) (remote : Option (Option Archive)) :
    (fetchCell fs remote).2 = true
    ∧ (∀ p c, fsLookup fs p = some c →
        fsLookup (fetchCell fs remote).1 p = some c)
    ∧ (∀ payload, fsLookup fs wgetTarget = none →
        fsLookup (fetchCell fs (some payload)).1 wgetTarget
          = some (FileContent.npzFile payload)) := by
  refine ⟨?_, ?_, ?_⟩
  · exact wget_downloads (mkdirP (mkdirP fs "data") "data/PittsburghBridge")
      wgetTarget remote
  · intro p c hp
    exact fetchCell_preserves fs remote p c hp
  · intro payload habs
    exact fetchCell_downloads_to_target fs payload habs

/-- Witness for C6 amended at the environment whose target file exists and at
the empty filesystem with the URL serving the archive. -/
theorem C6_fetch_unconditional_witness :
    (fetchCell envExisting.fs envExisting.remote).2 = true
    ∧ fsLookup (fetchCell envExisting.fs envExisting.remote).1 wgetTarget
        = some (FileContent.npzFile (some goodArchive))
    ∧ fsLookup (fetchCell envDownload.fs (some (some goodArchive))).1 wgetTarget
        = some (FileContent.npzFile (some goodArchive)) :=
  ⟨(C6_fetch_unconditional envExisting.fs envExisting.remote).1,
   (C6_fetch_unconditional envExisting.fs envExisting.remote).2.1 wgetTarget
     (FileContent.npzFile (some goodArchive)) (by decide),
   (C6_fetch_unconditional envDownload.fs envDownload.remote).2.2
     (some goodArchive) (by decide)⟩

/-- C7 as stated is false on the code: starting from an empty filesystem with
the URL serving the archive, the run writes to the filesystem — afterwards
the data file exists at a path that held nothing before the run. -/
theorem C7_counterexample :
    fsLookup envDownload.fs wgetTarget = none
    ∧ (fsAfterOf (notebookRun trivialCompositing envDownload)).isSome = true
    ∧ (Option.all (fun fs2 => (fsLookup fs2 wgetTarget).isSome)
        (fsAfterOf (notebookRun trivialCompositing envDownload))) = true := by
  exact ⟨by decide, by decide, by decide⟩

/-- C7 amended: only the asset-fetch cell writes — the filesystem a run
finishes with is exactly the fetch cell's output, so the load, render and
display steps write nothing, and every file that existed before the run is
unchanged after it. -/
theorem C7_writes_only_fetch (cfun : Compositing) (env : Env) :
    ((Option.all (fun res => res.fsAfter == (fetchCell env.fs env.remote).1)
        (notebookRun cfun env).toOption) = true)
    ∧ (∀ p c, fsLookup env.fs p = some c →
        (Option.all (fun res => fsLookup res.fsAfter p == some c)
          (notebookRun cfun env).toOption) = true) := by
  constructor
  · simp only [notebookRun]
    cases hl : loadCell (fetchCell env.fs env.remote).1 with
    | error e => rfl
    | ok pc => simp [Except.toOption]
  · intro p c hp
    simp only [notebookRun]
    cases hl : loadCell (fetchCell env.fs env.remote).1 with
    | error e => rfl
    | ok pc => simp [Except.toOption, fetchCell_preserves env.fs env.remote p c hp]

/-- Witness for C7 amended: in the completed local run the pre-existing
archive file is found unchanged in the final filesystem. -/
theorem C7_writes_only_fetch_witness :
    (Option.all (fun res => fsLookup res.fsAfter wgetTarget
          == some (FileContent.npzFile (some goodArchive)))
        (notebookRun trivialCompositing goodEnv).toOption) = true :=
  (C7_writes_only_fetch trivialCompositing goodEnv).2 wgetTarget
    (FileContent.npzFile (some goodArchive)) (by decide)

/-- C8: in every successful run the camera is exactly the constructor output
for the fixed scalars distance 20, elevation 10, azimuth 0 — a
rotation-translation pair derived from them — with znear 1/100 on the
selected device, and it is immutable: the camera carried by the renderer the
later render invocation uses is that same value, its rotation-translation
pair is still the one derived from (20, 10, 0) and its znear is still 1/100
(likewise for the second, identically constructed camera). -/
theorem C8_camera_fixed_immutable (cfun : Compositing) (env : Env) :
    (Option.all (fun res =>
        (res.camerasAlpha == OpenGLOrthographicCameras res.device
          (look_at_view_transform 20 10 0) (1 / 100))
        && (res.rendererAlpha.rasterizer.cameras == res.camerasAlpha)
        && (res.camerasNorm == OpenGLOrthographicCameras res.device
          (look_at_view_transform 20 10 0) (1 / 100))
        && (res.rendererNorm.rasterizer.cameras == res.camerasNorm)
        && (res.camerasAlpha.R_T == look_at_view_transform 20 10 0)
        && (res.camerasAlpha.znear == (1 / 100 : Scalar)))
      (notebookRun cfun env).toOption) = true := by
  simp only [notebookRun]
  cases hl : loadCell (fetchCell env.fs env.remote).1 with
  | error e => rfl
  | ok pc =>
    simp [Except.toOption, camerasCellAlpha, camerasCellNorm,
      OpenGLOrthographicCameras, look_at_view_transform]

/-- C9: the two renderer assemblies of a run differ only in the compositor —
alpha for the first, norm-weighted for the second — while their rasterizers,
cameras (derived from distance 20, elevation 10, azimuth 0, with znear 1/100)
and rasterization settings (image_size 512, radius 3/1000, points_per_pixel
10) are equal, and both render invocations receive the same point cloud. -/
theorem C9_renderers_differ_only_compositor (cfun : Compositing) (env : Env) :
    (Option.all (fun res =>
        (res.rendererAlpha.rasterizer == res.rendererNorm.rasterizer)
        && (res.camerasAlpha == res.camerasNorm)
        && (res.settingsAlpha == res.settingsNorm)
        && (res.settingsAlpha
              == PointsRasterizationSettings.mk 512 (3 / 1000) 10)
        && (res.camerasAlpha == OpenGLOrthographicCameras res.device
              (look_at_view_transform 20 10 0) (1 / 100))
        && (res.rendererAlpha.compositor == CompositorKind.alpha)
        && (res.rendererNorm.compositor == CompositorKind.normWeighted)
        && (res.pcUsedAlpha == res.pcUsedNorm))
      (notebookRun cfun env).toOption) = true := by
  simp only [notebookRun]
  cases hl : loadCell (fetchCell env.fs env.remote).1 with
  | error e => rfl
  | ok pc =>
    simp [Except.toOption, camerasCellAlpha, camerasCellNorm,
      rasterSettingsAlpha, rasterSettingsNorm, OpenGLOrthographicCameras,
      look_at_view_transform]

/-- C10: in every successful run the point cloud is a batch of exactly one
element (one points list, one features list), each render invocation
therefore produces a batch of exactly one image, indexing that batch at 0 —
what the display cell does — is in bounds, and the displayed image keeps at
most the first three color channels. -/
theorem C10_singleton_batch_display (cfun : Compositing) (env : Env) :
    (Option.all (fun res =>
        (res.pointCloud.pointsLists.length == 1)
        && (res.pointCloud.featuresLists.length == 1)
        && (res.imagesAlpha.length == 1)
        && (res.imagesNorm.length == 1)
        && res.displayAlpha.isSome
        && res.displayNorm.isSome
        && (Option.all (fun d => decide (d.channels ≤ 3)) res.displayAlpha)
        && (Option.all (fun d => decide (d.channels ≤ 3)) res.displayNorm))
      (notebookRun cfun env).toOption) = true := by
  simp only [notebookRun]
  cases hl : loadCell (fetchCell env.fs env.remote).1 with
  | error e => rfl
  | ok pc =>
    obtain ⟨a, hload, hpc, hv⟩ := loadCell_ok_shape _ pc hl
    subst hpc
    simp [Except.toOption, rendererApply, renderImage, displayCell,
      sliceChannels, Nat.min_le_left]

end ColoredPoints
